import Mathlib

/-!
Verification of the Kisunla treatment flowsheet (src/kisunla-streamlit.py)
against its natural-language specification.

The embedding below translates the domain logic of the source file:
the dosing calculator, the volume calculator, the in-memory patient data
dictionary seeded by init_session_state, the three form-submission append
operations, and the summary-tab accessors.  Python floats appear only in
the volume computation, where every value involved is an exact small
rational, so volumes are modelled as rationals.  Python exceptions
(ValueError from max over an empty list, IndexError from indexing an
empty list) are modelled as the none / error branches of Option and
Except results.
-/

/-- Record stored in patient_data.infusions (see the seeded dictionaries
and new_infusion in render_add_infusion_modal). -/
structure InfusionRecord where
  id : Nat
  number : Int
  date : String
  dose : Int
  volume : ℚ
  infusionstatus : String
  notes : String
deriving DecidableEq, Repr

/-- Record stored in patient_data.mri_tracking. -/
structure MriRecord where
  id : Nat
  date : String
  type : String
  notes : String
deriving DecidableEq, Repr

/-- The aria_e sub-dictionary of an ARIA assessment. -/
structure AriaE where
  flair_severity : String
  clinical_severity : String
deriving DecidableEq, Repr

/-- The aria_h sub-dictionary of an ARIA assessment. -/
structure AriaH where
  microhemorrhages : String
  siderosis : String
deriving DecidableEq, Repr

/-- Record stored in patient_data.aria_assessments. -/
structure AriaAssessment where
  id : Nat
  date : String
  aria_e : AriaE
  aria_h : AriaH
  symptoms : List String
deriving DecidableEq, Repr

/-- The st.session_state.patient_data dictionary: three ordered record
lists plus the scalar patient-profile entries. -/
structure PatientData where
  infusions : List InfusionRecord
  mri_tracking : List MriRecord
  aria_assessments : List AriaAssessment
  cms_registry : String
  apoe4_status : String
  overall_aria_risk : String
  symptomatic_aria : String
  serious_events : String
deriving DecidableEq, Repr

/-- The seed value that init_session_state assigns to
st.session_state.patient_data on first access. -/
def initial_patient_data : PatientData :=
  { infusions :=
      [ { id := 21, number := 21, date := "2025-08-27", dose := 1400, volume := 40,
          infusionstatus := "completed", notes := "Maintenance dose - patient tolerated well" },
        { id := 20, number := 20, date := "2025-08-13", dose := 1400, volume := 40,
          infusionstatus := "completed", notes := "" },
        { id := 19, number := 19, date := "2025-07-28", dose := 1400, volume := 40,
          infusionstatus := "completed", notes := "" },
        { id := 18, number := 18, date := "2025-05-12", dose := 1400, volume := 40,
          infusionstatus := "completed", notes := "" },
        { id := 17, number := 17, date := "2025-05-05", dose := 1050, volume := 30,
          infusionstatus := "completed", notes := "Third dose - titration phase" } ],
    mri_tracking :=
      [ { id := 5, date := "2025-08-27", type := "Baseline", notes := "Stable - no new ARIA findings" },
        { id := 4, date := "2025-08-13", type := "Baseline", notes := "N/A" },
        { id := 3, date := "2025-07-30", type := "Baseline", notes := "Mild FLAIR changes noted" },
        { id := 2, date := "2025-07-15", type := "Baseline", notes := "Baseline study" },
        { id := 1, date := "2025-06-05", type := "Baseline", notes := "Pre-treatment baseline" } ],
    aria_assessments :=
      [ { id := 4, date := "2025-08-27",
          aria_e := { flair_severity := "None", clinical_severity := "Asymptomatic" },
          aria_h := { microhemorrhages := "None", siderosis := "None" },
          symptoms := [] },
        { id := 3, date := "2025-08-13",
          aria_e := { flair_severity := "None", clinical_severity := "Asymptomatic" },
          aria_h := { microhemorrhages := "None", siderosis := "None" },
          symptoms := [] },
        { id := 2, date := "2025-07-30",
          aria_e := { flair_severity := "Mild", clinical_severity := "Asymptomatic" },
          aria_h := { microhemorrhages := "Mild (2-4)", siderosis := "None" },
          symptoms := [] } ],
    cms_registry := "123445",
    apoe4_status := "Homozygote (e4/e4)",
    overall_aria_risk := "45%",
    symptomatic_aria := "9%",
    serious_events := "3%" }

/-- calculate_kisunla_dose: the four-branch titration lookup.  Every
infusion number other than 1, 2 and 3 falls into the final else branch. -/
def calculate_kisunla_dose (infusion_number : Int) : Int :=
  if infusion_number = 1 then 350
  else if infusion_number = 2 then 700
  else if infusion_number = 3 then 1050
  else 1400

/-- calculate_volume: (dose / 350) * 20, exact arithmetic. -/
def calculate_volume (dose : ℚ) : ℚ :=
  (dose / 350) * 20

/-- Python max over a list of naturals: ValueError (none) on the empty
list, otherwise the greatest element. -/
def pyListMax (l : List Nat) : Option Nat :=
  l.max?

/-- The id expression of render_add_infusion_modal:
max of the existing infusion ids, plus one. -/
def infusion_new_id (infusions : List InfusionRecord) : Option Nat :=
  (pyListMax (infusions.map InfusionRecord.id)).map (· + 1)

/-- The id expression of render_add_mri_modal:
max of the existing MRI ids, plus one. -/
def mri_new_id (mri_tracking : List MriRecord) : Option Nat :=
  (pyListMax (mri_tracking.map MriRecord.id)).map (· + 1)

/-- The id expression of render_add_aria_modal:
max of the existing assessment ids, plus one. -/
def aria_new_id (aria_assessments : List AriaAssessment) : Option Nat :=
  (pyListMax (aria_assessments.map AriaAssessment.id)).map (· + 1)

/-- The Save Infusion branch of render_add_infusion_modal: build
new_infusion from the form fields (dose and volume come from the two
calculators) and insert it at index 0 of patient_data.infusions.
Returns none when the id computation raises (empty collection). -/
def render_add_infusion_submit (st : PatientData) (infusion_number : Int)
    (infusion_date notes : String) : Option PatientData :=
  (infusion_new_id st.infusions).map (fun newid =>
    let calculated_dose := calculate_kisunla_dose infusion_number
    let new_infusion : InfusionRecord :=
      { id := newid, number := infusion_number, date := infusion_date,
        dose := calculated_dose, volume := calculate_volume (calculated_dose : ℚ),
        infusionstatus := "completed", notes := notes }
    { st with infusions := new_infusion :: st.infusions })

/-- The options list of the MRI Type selectbox in render_add_mri_modal. -/
def mri_type_options : List String :=
  ["Baseline", "Follow-update", "Safety"]

/-- The Save MRI Record branch of render_add_mri_modal. -/
def render_add_mri_submit (st : PatientData) (mri_date mri_type notes : String) :
    Option PatientData :=
  (mri_new_id st.mri_tracking).map (fun newid =>
    let new_mri : MriRecord :=
      { id := newid, date := mri_date, type := mri_type, notes := notes }
    { st with mri_tracking := new_mri :: st.mri_tracking })

/-- The Save Assessment branch of render_add_aria_modal. -/
def render_add_aria_submit (st : PatientData) (aria_date flair_severity
    clinical_severity microhemorrhages siderosis : String)
    (symptoms : List String) : Option PatientData :=
  (aria_new_id st.aria_assessments).map (fun newid =>
    let new_assessment : AriaAssessment :=
      { id := newid, date := aria_date,
        aria_e := { flair_severity := flair_severity, clinical_severity := clinical_severity },
        aria_h := { microhemorrhages := microhemorrhages, siderosis := siderosis },
        symptoms := symptoms }
    { st with aria_assessments := new_assessment :: st.aria_assessments })

/-- The current-infusion access of render_summary:
patient_data.infusions[0].number, an unguarded index that raises
IndexError on an empty list. -/
def render_summary_current_infusion (infusions : List InfusionRecord) :
    Except String Int :=
  match infusions with
  | [] => Except.error "IndexError: list index out of range"
  | r :: _ => Except.ok r.number

/-- The latest-MRI access of render_summary:
patient_data.mri_tracking[0], an unguarded index that raises IndexError
on an empty list. -/
def render_summary_latest_mri (mri_tracking : List MriRecord) :
    Except String MriRecord :=
  match mri_tracking with
  | [] => Except.error "IndexError: list index out of range"
  | m :: _ => Except.ok m

/-- A one-record-per-collection store used to instantiate theorems with
hypotheses at concrete inputs. -/
def test_store : PatientData :=
  { infusions :=
      [ { id := 1, number := 1, date := "2025-01-01", dose := 350, volume := 20,
          infusionstatus := "completed", notes := "" } ],
    mri_tracking := [ { id := 1, date := "2025-01-01", type := "Baseline", notes := "" } ],
    aria_assessments :=
      [ { id := 1, date := "2025-01-01",
          aria_e := { flair_severity := "None", clinical_severity := "Asymptomatic" },
          aria_h := { microhemorrhages := "None", siderosis := "None" },
          symptoms := [] } ],
    cms_registry := "", apoe4_status := "Not Tested",
    overall_aria_risk := "Not Assessed", symptomatic_aria := "Not Assessed",
    serious_events := "Not Assessed" }

/-- The store obtained from test_store by submitting the add-infusion
form with number 2. -/
def test_store_after_infusion : PatientData :=
  (render_add_infusion_submit test_store 2 "2025-02-01" "ok").getD test_store

/-- The store obtained from test_store by submitting the add-MRI form. -/
def test_store_after_mri : PatientData :=
  (render_add_mri_submit test_store "2025-02-02" "Safety" "clear").getD test_store

/-- The store obtained from test_store by submitting the add-ARIA form. -/
def test_store_after_aria : PatientData :=
  (render_add_aria_submit test_store "2025-02-03" "None" "Asymptomatic"
    "None" "None" []).getD test_store


/-- Helper: Python max over a non-empty list of naturals succeeds and
returns an element of the list that bounds every element. -/
theorem pyListMax_cons_spec (a : Nat) (l : List Nat) :
    ∃ m, pyListMax (a :: l) = some m ∧ m ∈ a :: l ∧ ∀ i ∈ a :: l, i ≤ m := by
  have h : (a :: l).max? = some (List.foldl max a l) := List.max?_cons'
  have h2 := List.max?_eq_some_iff'.mp h
  exact ⟨_, h, h2.1, h2.2⟩

/-- Claim C1: calculate_kisunla_dose returns exactly 350 for infusion
number 1, 700 for 2, 1050 for 3, and 1400 for every number at least 4,
with no upper bound. -/
theorem calculate_kisunla_dose_titration :
    calculate_kisunla_dose 1 = 350 ∧ calculate_kisunla_dose 2 = 700 ∧
    calculate_kisunla_dose 3 = 1050 ∧
    ∀ n : Int, 4 ≤ n → calculate_kisunla_dose n = 1400 := by
  refine ⟨rfl, rfl, rfl, ?_⟩
  intro n h
  unfold calculate_kisunla_dose
  split_ifs with h1 h2 h3 <;> omega

/-- Witness for C1 at the out-of-protocol number 1000000. -/
theorem calculate_kisunla_dose_titration_witness :
    (4 : Int) ≤ 1000000 ∧ calculate_kisunla_dose 1000000 = 1400 :=
  ⟨by norm_num, calculate_kisunla_dose_titration.2.2.2 1000000 (by norm_num)⟩

/-- Claim C2: calculate_volume is exactly d / 350 * 20 with no rounding
or truncation; in particular 1400 maps to 80 and 1050 maps to 60, and a
non-multiple of 350 keeps its exact fractional value. -/
theorem calculate_volume_formula :
    (∀ d : ℚ, 0 < d → calculate_volume d = d / 350 * 20) ∧
    calculate_volume 1400 = 80 ∧ calculate_volume 1050 = 60 ∧
    calculate_volume 1 = 2 / 35 := by
  refine ⟨fun d _ => rfl, ?_, ?_, ?_⟩ <;> norm_num [calculate_volume]

/-- Witness for C2 at dose 7. -/
theorem calculate_volume_formula_witness :
    (0 : ℚ) < 7 ∧ calculate_volume 7 = 7 / 350 * 20 :=
  ⟨by norm_num, calculate_volume_formula.1 7 (by norm_num)⟩

/-- Counterexample for C3: appending to an empty collection does not
assign id 1 - the max-over-empty-list id expression raises ValueError
(modelled as none). -/
theorem infusion_new_id_empty_fails :
    infusion_new_id [] = none ∧ infusion_new_id [] ≠ some 1 := by decide

/-- Claim C3 (amended): on a non-empty collection each of the three id
expressions returns max(existing ids) + 1 - the returned value is one
plus an id that is present and bounds every present id - independent of
the order of the list; on an empty collection the expression fails. -/
theorem new_id_is_max_plus_one :
    (∀ (x : InfusionRecord) (xs : List InfusionRecord), ∃ m,
        infusion_new_id (x :: xs) = some (m + 1) ∧
        m ∈ (x :: xs).map InfusionRecord.id ∧
        ∀ i ∈ (x :: xs).map InfusionRecord.id, i ≤ m) ∧
    (∀ (x : MriRecord) (xs : List MriRecord), ∃ m,
        mri_new_id (x :: xs) = some (m + 1) ∧
        m ∈ (x :: xs).map MriRecord.id ∧
        ∀ i ∈ (x :: xs).map MriRecord.id, i ≤ m) ∧
    (∀ (x : AriaAssessment) (xs : List AriaAssessment), ∃ m,
        aria_new_id (x :: xs) = some (m + 1) ∧
        m ∈ (x :: xs).map AriaAssessment.id ∧
        ∀ i ∈ (x :: xs).map AriaAssessment.id, i ≤ m) := by
  refine ⟨fun x xs => ?_, fun x xs => ?_, fun x xs => ?_⟩
  · obtain ⟨m, hm, hmem, hle⟩ := pyListMax_cons_spec x.id (xs.map InfusionRecord.id)
    exact ⟨m, by simp [infusion_new_id, hm], by simpa using hmem, by simpa using hle⟩
  · obtain ⟨m, hm, hmem, hle⟩ := pyListMax_cons_spec x.id (xs.map MriRecord.id)
    exact ⟨m, by simp [mri_new_id, hm], by simpa using hmem, by simpa using hle⟩
  · obtain ⟨m, hm, hmem, hle⟩ := pyListMax_cons_spec x.id (xs.map AriaAssessment.id)
    exact ⟨m, by simp [aria_new_id, hm], by simpa using hmem, by simpa using hle⟩

/-- Witness for the amended C3 on a one-record infusion list. -/
theorem new_id_is_max_plus_one_witness :
    ∃ m, infusion_new_id
        [⟨7, 1, "2025-01-01", 350, 20, "completed", ""⟩] = some (m + 1) ∧
      m ∈ ([⟨7, 1, "2025-01-01", 350, 20, "completed", ""⟩] :
            List InfusionRecord).map InfusionRecord.id ∧
      ∀ i ∈ ([⟨7, 1, "2025-01-01", 350, 20, "completed", ""⟩] :
            List InfusionRecord).map InfusionRecord.id, i ≤ m :=
  new_id_is_max_plus_one.1 ⟨7, 1, "2025-01-01", 350, 20, "completed", ""⟩ []

/-- Claim C4: whenever one of the three append operations succeeds, the
newly built record is inserted at the front - the updated list is the
new record consed onto the old list, and the summary-tab first-element
accessors return the new record. -/
theorem append_inserts_at_front :
    (∀ st n dt nts st', render_add_infusion_submit st n dt nts = some st' →
       ∃ r, st'.infusions = r :: st.infusions ∧
         render_summary_current_infusion st'.infusions = Except.ok r.number) ∧
    (∀ st dt ty nts st', render_add_mri_submit st dt ty nts = some st' →
       ∃ r, st'.mri_tracking = r :: st.mri_tracking ∧
         render_summary_latest_mri st'.mri_tracking = Except.ok r) ∧
    (∀ st dt fe ce mh sd sy st', render_add_aria_submit st dt fe ce mh sd sy = some st' →
       ∃ r, st'.aria_assessments = r :: st.aria_assessments ∧
         st'.aria_assessments.head? = some r) := by
  refine ⟨?_, ?_, ?_⟩
  · intro st n dt nts st' h
    unfold render_add_infusion_submit at h
    rw [Option.map_eq_some'] at h
    obtain ⟨a, _, rfl⟩ := h
    exact ⟨_, rfl, rfl⟩
  · intro st dt ty nts st' h
    unfold render_add_mri_submit at h
    rw [Option.map_eq_some'] at h
    obtain ⟨a, _, rfl⟩ := h
    exact ⟨_, rfl, rfl⟩
  · intro st dt fe ce mh sd sy st' h
    unfold render_add_aria_submit at h
    rw [Option.map_eq_some'] at h
    obtain ⟨a, _, rfl⟩ := h
    exact ⟨_, rfl, rfl⟩

/-- Witness for C4: submitting the add-infusion form on test_store. -/
theorem append_inserts_at_front_witness :
    render_add_infusion_submit test_store 2 "2025-02-01" "ok" = some test_store_after_infusion ∧
    ∃ r, test_store_after_infusion.infusions = r :: test_store.infusions ∧
      render_summary_current_infusion test_store_after_infusion.infusions = Except.ok r.number :=
  ⟨rfl, append_inserts_at_front.1 test_store 2 "2025-02-01" "ok"
      test_store_after_infusion rfl⟩

/-- Counterexample for C5: the latest-MRI access of render_summary on an
empty collection raises IndexError (unguarded index 0) instead of
returning a displayable no-data sentinel. -/
theorem render_summary_latest_mri_empty_raises :
    render_summary_latest_mri [] = Except.error "IndexError: list index out of range" ∧
    (render_summary_latest_mri []).isOk = false := ⟨rfl, rfl⟩

/-- Claim C5 (amended): the summary-tab accessors are unguarded index-0
reads - on an empty collection they raise IndexError (no sentinel path
exists), and on a non-empty collection they return the first record. -/
theorem render_summary_latest_behavior :
    render_summary_current_infusion [] =
      Except.error "IndexError: list index out of range" ∧
    (∀ (m : MriRecord) (l : List MriRecord),
        render_summary_latest_mri (m :: l) = Except.ok m) ∧
    (∀ (r : InfusionRecord) (l : List InfusionRecord),
        render_summary_current_infusion (r :: l) = Except.ok r.number) :=
  ⟨rfl, fun _ _ => rfl, fun _ _ => rfl⟩

/-- Counterexample for C6: calculate_kisunla_dose 0 returns the
maintenance dose 1400; no input-validation error is raised for a
non-positive infusion number. -/
theorem calculate_kisunla_dose_zero : calculate_kisunla_dose 0 = 1400 := by decide

/-- Claim C6 (amended): for every infusion number below 1 the function
silently falls into the final else branch and returns 1400; the code has
no error path at all. -/
theorem calculate_kisunla_dose_nonpositive :
    ∀ n : Int, n < 1 → calculate_kisunla_dose n = 1400 := by
  intro n h
  unfold calculate_kisunla_dose
  split_ifs with h1 h2 h3 <;> omega

/-- Witness for the amended C6 at infusion number -5. -/
theorem calculate_kisunla_dose_nonpositive_witness :
    (-5 : Int) < 1 ∧ calculate_kisunla_dose (-5) = 1400 :=
  ⟨by norm_num, calculate_kisunla_dose_nonpositive (-5) (by norm_num)⟩

/-- Claim C7: every infusion record produced by a successful
add-infusion submission has volume equal to dose / 350 * 20, where the
dose is the calculated dose for the submitted infusion number. -/
theorem infusion_volume_invariant :
    ∀ st n dt nts st', render_add_infusion_submit st n dt nts = some st' →
      ∃ r, st'.infusions.head? = some r ∧
        r.volume = (r.dose : ℚ) / 350 * 20 ∧
        r.dose = calculate_kisunla_dose n := by
  intro st n dt nts st' h
  unfold render_add_infusion_submit at h
  rw [Option.map_eq_some'] at h
  obtain ⟨a, _, rfl⟩ := h
  exact ⟨_, rfl, rfl, rfl⟩

/-- Witness for C7: the record produced on test_store by submitting
infusion number 2. -/
theorem infusion_volume_invariant_witness :
    render_add_infusion_submit test_store 2 "2025-02-01" "ok" = some test_store_after_infusion ∧
    ∃ r, test_store_after_infusion.infusions.head? = some r ∧
      r.volume = (r.dose : ℚ) / 350 * 20 ∧
      r.dose = calculate_kisunla_dose 2 :=
  ⟨rfl, infusion_volume_invariant test_store 2 "2025-02-01" "ok"
      test_store_after_infusion rfl⟩

/-- Counterexample for C8: the store created on first access is not
empty and its profile scalars are not the Not Tested / Not Assessed
defaults. -/
theorem initial_patient_data_not_empty :
    initial_patient_data.infusions ≠ [] ∧
    initial_patient_data.mri_tracking ≠ [] ∧
    initial_patient_data.aria_assessments ≠ [] ∧
    initial_patient_data.apoe4_status ≠ "Not Tested" ∧
    initial_patient_data.overall_aria_risk ≠ "Not Assessed" := by decide

/-- Claim C8 (amended): on first access the store is created pre-seeded
with sample data - five infusions, five MRI records, three ARIA
assessments - and concrete profile scalars. -/
theorem initial_patient_data_seeded :
    initial_patient_data.infusions.length = 5 ∧
    initial_patient_data.mri_tracking.length = 5 ∧
    initial_patient_data.aria_assessments.length = 3 ∧
    initial_patient_data.cms_registry = "123445" ∧
    initial_patient_data.apoe4_status = "Homozygote (e4/e4)" ∧
    initial_patient_data.overall_aria_risk = "45%" ∧
    initial_patient_data.symptomatic_aria = "9%" ∧
    initial_patient_data.serious_events = "3%" := by decide

/-- Claim C9 (code bug): the MRI Type selectbox offers the misspelled
option Follow-update, not Follow-up, so an add-MRI submission can store
a type outside the documented enumeration; the submission with that
option stores it verbatim. -/
theorem mri_type_followupdate :
    "Follow-update" ∈ mri_type_options ∧
    "Follow-up" ∉ mri_type_options ∧
    (render_add_mri_submit initial_patient_data "2025-09-10" "Follow-update" "").map
        (fun st => st.mri_tracking.head?.map MriRecord.type) =
      some (some "Follow-update") := by decide

/-- Profile scalars of two stores coincide. -/
def scalars_unchanged (s t : PatientData) : Prop :=
  t.cms_registry = s.cms_registry ∧ t.apoe4_status = s.apoe4_status ∧
  t.overall_aria_risk = s.overall_aria_risk ∧
  t.symptomatic_aria = s.symptomatic_aria ∧ t.serious_events = s.serious_events

/-- Claim C10: each successful append prepends exactly one record to its
own collection (the tail is the unchanged old list, length grows by
one), leaves the other two collections unchanged, and leaves the five
profile scalars unchanged. -/
theorem append_frame :
    (∀ st n dt nts st', render_add_infusion_submit st n dt nts = some st' →
       st'.infusions.length = st.infusions.length + 1 ∧
       st'.infusions.tail = st.infusions ∧
       st'.mri_tracking = st.mri_tracking ∧
       st'.aria_assessments = st.aria_assessments ∧
       scalars_unchanged st st') ∧
    (∀ st dt ty nts st', render_add_mri_submit st dt ty nts = some st' →
       st'.mri_tracking.length = st.mri_tracking.length + 1 ∧
       st'.mri_tracking.tail = st.mri_tracking ∧
       st'.infusions = st.infusions ∧
       st'.aria_assessments = st.aria_assessments ∧
       scalars_unchanged st st') ∧
    (∀ st dt fe ce mh sd sy st', render_add_aria_submit st dt fe ce mh sd sy = some st' →
       st'.aria_assessments.length = st.aria_assessments.length + 1 ∧
       st'.aria_assessments.tail = st.aria_assessments ∧
       st'.infusions = st.infusions ∧
       st'.mri_tracking = st.mri_tracking ∧
       scalars_unchanged st st') := by
  refine ⟨?_, ?_, ?_⟩
  · intro st n dt nts st' h
    unfold render_add_infusion_submit at h
    rw [Option.map_eq_some'] at h
    obtain ⟨a, _, rfl⟩ := h
    exact ⟨rfl, rfl, rfl, rfl, rfl, rfl, rfl, rfl, rfl⟩
  · intro st dt ty nts st' h
    unfold render_add_mri_submit at h
    rw [Option.map_eq_some'] at h
    obtain ⟨a, _, rfl⟩ := h
    exact ⟨rfl, rfl, rfl, rfl, rfl, rfl, rfl, rfl, rfl⟩
  · intro st dt fe ce mh sd sy st' h
    unfold render_add_aria_submit at h
    rw [Option.map_eq_some'] at h
    obtain ⟨a, _, rfl⟩ := h
    exact ⟨rfl, rfl, rfl, rfl, rfl, rfl, rfl, rfl, rfl⟩

/-- Witness for C10: submitting the add-MRI form on test_store. -/
theorem append_frame_witness :
    render_add_mri_submit test_store "2025-02-02" "Safety" "clear" = some test_store_after_mri ∧
    (test_store_after_mri.mri_tracking.length = test_store.mri_tracking.length + 1 ∧
     test_store_after_mri.mri_tracking.tail = test_store.mri_tracking ∧
     test_store_after_mri.infusions = test_store.infusions ∧
     test_store_after_mri.aria_assessments = test_store.aria_assessments ∧
     scalars_unchanged test_store test_store_after_mri) :=
  ⟨rfl, append_frame.2.1 test_store "2025-02-02" "Safety" "clear"
      test_store_after_mri rfl⟩
